import Mathlib

/-!
Verification of the product-catalog demo: the Express/MySQL CRUD router
(`backend/src/routes/products.ts`), the submission form
(`AddProductForm.tsx`) and the catalog page component.

Server side: each route handler is embedded as a pure function over an
explicit database state.  The MySQL table is modelled as a list of rows
plus an auto-increment counter; `pool.query` faults (the `catch` paths)
are modelled by a fault schedule `Nat → Bool` telling, for each
successive query a handler issues, whether it throws.  A faulting query
leaves the database unchanged.  JSON body values are modelled by
`JsonVal`, with JavaScript truthiness (`!v`) as `truthy`; an absent
field is `Option.none` and is stored as SQL NULL (the driver escapes
`undefined` to NULL, and the code writes `image ?? null` explicitly).
-/

/-- A JSON value as it can appear in a request-body field. -/
inductive JsonVal where
  | str (s : String)
  | num (q : ℚ)
  | boolean (b : Bool)
  | null
deriving DecidableEq, Repr

/-- JavaScript truthiness of a JSON value: `""`, `0`, `false` and `null`
are falsy, everything else is truthy. -/
def JsonVal.truthy : JsonVal → Bool
  | .str s => decide (s ≠ "")
  | .num q => decide (q ≠ 0)
  | .boolean b => b
  | .null => false

/-- Truthiness of a possibly absent body field (`undefined` is falsy). -/
def truthyOpt : Option JsonVal → Bool
  | some v => v.truthy
  | none => false

/-- The value stored in a column for a possibly absent body field: an
absent field is stored as NULL (`image ?? null` in the code; the query
formatter escapes `undefined` as NULL for the other columns). -/
def optToVal : Option JsonVal → JsonVal
  | some v => v
  | none => JsonVal.null

/-- The JSON request body of the create/update routes: destructured as
`{ name, price, description, category, image }`, each possibly absent. -/
structure ReqBody where
  name : Option JsonVal
  price : Option JsonVal
  description : Option JsonVal
  category : Option JsonVal
  image : Option JsonVal
deriving DecidableEq, Repr

/-- A row of the `products` table. -/
structure Row where
  id : Nat
  name : JsonVal
  price : JsonVal
  description : JsonVal
  category : JsonVal
  image : JsonVal
deriving DecidableEq, Repr

/-- The `products` table: its rows plus the auto-increment counter that
yields the next `insertId`. -/
structure DB where
  rows : List Row
  nextId : Nat
deriving DecidableEq, Repr

/-- A JSON response body: a message object, a single row, a row list, or
the empty body produced by `res.json(undefined)`. -/
inductive RespBody where
  | msg (s : String)
  | row (r : Row)
  | rows (l : List Row)
  | empty
deriving DecidableEq, Repr

/-- Whether a response body is a `{ message }` object. -/
def RespBody.isMsg : RespBody → Bool
  | .msg _ => true
  | _ => false

/-- An HTTP response: status code and JSON body. -/
structure HttpResponse where
  status : Nat
  body : RespBody
deriving DecidableEq, Repr

/-- The fault schedule on which no query throws: normal operation. -/
def noFaults : Nat → Bool := fun _ => false

/-- `SELECT * FROM products WHERE id = ?`. -/
def selectById (db : DB) (id : Nat) : List Row :=
  db.rows.filter (fun r => r.id == id)

/-- Number of rows matching an id (`affectedRows` of UPDATE/DELETE). -/
def matchCount (db : DB) (id : Nat) : Nat :=
  (selectById db id).length

/-- `SELECT * FROM products ORDER BY id DESC`. -/
def sortByIdDesc (rows : List Row) : List Row :=
  List.insertionSort (fun a b => b.id ≤ a.id) rows

instance : IsTotal Row (fun a b => b.id ≤ a.id) :=
  ⟨fun a b => Nat.le_total b.id a.id⟩

instance : IsTrans Row (fun a b => b.id ≤ a.id) :=
  ⟨fun _ _ _ hab hbc => Nat.le_trans hbc hab⟩

/-- Handler of `GET /products`: one query; on fault 500, otherwise the
full collection ordered by id descending. -/
def getAllHandler (db : DB) (faults : Nat → Bool) : HttpResponse × DB :=
  if faults 0 then (⟨500, .msg "Failed to fetch products"⟩, db)
  else (⟨200, .rows (sortByIdDesc db.rows)⟩, db)

/-- Handler of `GET /products/:id`: one query; on fault 500; 404 when no
row matches; otherwise the first matching row. -/
def getOneHandler (db : DB) (id : Nat) (faults : Nat → Bool) :
    HttpResponse × DB :=
  if faults 0 then (⟨500, .msg "Failed to fetch product"⟩, db)
  else
    match selectById db id with
    | [] => (⟨404, .msg "Product not found"⟩, db)
    | r :: _ => (⟨200, .row r⟩, db)

/-- The validation of `POST /products`:
`if (!name || !price || !description || !category)`. -/
def requiredPresent (b : ReqBody) : Bool :=
  truthyOpt b.name && truthyOpt b.price &&
    truthyOpt b.description && truthyOpt b.category

/-- Handler of `POST /products`: truthiness validation, then INSERT
(query 0), then a SELECT of the fresh id (query 1); faults give 500. -/
def postHandler (db : DB) (b : ReqBody) (faults : Nat → Bool) :
    HttpResponse × DB :=
  if !requiredPresent b then (⟨400, .msg "Missing required fields"⟩, db)
  else if faults 0 then (⟨500, .msg "Failed to create product"⟩, db)
  else
    let row : Row := ⟨db.nextId, optToVal b.name, optToVal b.price,
      optToVal b.description, optToVal b.category, optToVal b.image⟩
    let db1 : DB := ⟨db.rows ++ [row], db.nextId + 1⟩
    if faults 1 then (⟨500, .msg "Failed to create product"⟩, db1)
    else
      match selectById db1 db.nextId with
      | r :: _ => (⟨201, .row r⟩, db1)
      | [] => (⟨201, .empty⟩, db1)

/-- The UPDATE statement's effect on one row: every mutable column is
overwritten from the body, absent fields becoming NULL. -/
def applyUpdate (r : Row) (b : ReqBody) : Row :=
  { r with
    name := optToVal b.name
    price := optToVal b.price
    description := optToVal b.description
    category := optToVal b.category
    image := optToVal b.image }

/-- The table after the UPDATE statement: every row matching the id has
its mutable columns overwritten from the body. -/
def updatedDB (db : DB) (id : Nat) (b : ReqBody) : DB :=
  ⟨db.rows.map (fun r => if r.id == id then applyUpdate r b else r),
    db.nextId⟩

/-- Handler of `PUT /products/:id`: UPDATE (query 0), 404 when it
matched no row, then a SELECT of the row (query 1); faults give 500.
No field validation is performed. -/
def putHandler (db : DB) (id : Nat) (b : ReqBody) (faults : Nat → Bool) :
    HttpResponse × DB :=
  if faults 0 then (⟨500, .msg "Failed to update product"⟩, db)
  else if matchCount db id == 0 then
    (⟨404, .msg "Product not found"⟩, updatedDB db id b)
  else if faults 1 then
    (⟨500, .msg "Failed to update product"⟩, updatedDB db id b)
  else
    match selectById (updatedDB db id b) id with
    | r :: _ => (⟨200, .row r⟩, updatedDB db id b)
    | [] => (⟨200, .empty⟩, updatedDB db id b)

/-- Handler of `DELETE /products/:id`: DELETE (query 0), 404 when it
matched no row, otherwise a confirmation message. -/
def deleteHandler (db : DB) (id : Nat) (faults : Nat → Bool) :
    HttpResponse × DB :=
  if faults 0 then (⟨500, .msg "Failed to delete product"⟩, db)
  else if matchCount db id == 0 then (⟨404, .msg "Product not found"⟩, db)
  else (⟨200, .msg "Product deleted"⟩,
    ⟨db.rows.filter (fun r => r.id != id), db.nextId⟩)

/-- A response that reports an unclassified server fault:
status 500 with a `{ message }` body. -/
def serverFaultResp (r : HttpResponse) : Prop :=
  r.status = 500 ∧ r.body.isMsg = true

/-- Well-formedness of the table: every stored id is below the
auto-increment counter (MySQL AUTO_INCREMENT behaviour). -/
def DB.wf (db : DB) : Prop :=
  ∀ r ∈ db.rows, r.id < db.nextId

/-- The empty database. -/
def dbEmpty : DB := ⟨[], 1⟩

/-!
Client side.  `AddProductForm.tsx` holds string states for the fields,
a Base64 image payload, a preview source and three status states; its
`allValid` predicate gates the submit button (`disabled={!allValid}`),
and `handleSubmit` sets `submitting` for the duration of the fetch.
The component is embedded as a state type plus a step function over the
events the DOM can deliver; a submission can start only while the
submit control is enabled.
-/

/-- Model of JavaScript `String.prototype.trim()`: strips leading and
trailing whitespace.  Implemented over the character list so that it
evaluates inside the kernel. -/
def jsTrim (s : String) : String :=
  ⟨((s.toList.dropWhile Char.isWhitespace).reverse.dropWhile
      Char.isWhitespace).reverse⟩

/-- Digits-to-number accumulator used by the `Number(...)` model. -/
def natFromDigits (cs : List Char) : Nat :=
  cs.foldl (fun n c => n * 10 + (c.toNat - 48)) 0

/-- Model of JavaScript `Number(string)` on form input: whitespace is
trimmed, the empty string is 0, and an optionally signed decimal
numeral (integer part, fractional part, or both) parses to its value;
anything else is NaN (`none`).  The value is returned as a signed
numerator over a power-of-ten denominator so that it evaluates inside
the kernel.  Exponent and hexadecimal forms are not modelled; a numeric
`<input>` does not produce them here. -/
def jsNumber (s : String) : Option (Int × Nat) :=
  let t := jsTrim s
  if t = "" then some (0, 1)
  else
    let cs := t.toList
    let signed : Int × List Char :=
      match cs with
      | '-' :: rest => (-1, rest)
      | '+' :: rest => (1, rest)
      | _ => (1, cs)
    let intPart := signed.2.takeWhile (fun c => c.isDigit)
    let rest := signed.2.dropWhile (fun c => c.isDigit)
    match rest with
    | [] =>
      if intPart.isEmpty then none
      else some (signed.1 * (natFromDigits intPart : Int), 1)
    | '.' :: frac =>
      if frac.all (fun c => c.isDigit) &&
          (!intPart.isEmpty || !frac.isEmpty) then
        some (signed.1 * ((natFromDigits intPart * 10 ^ frac.length +
          natFromDigits frac : Nat) : Int), 10 ^ frac.length)
      else none
    | _ => none

/-- The rational value of a parsed numeric input (`none` is NaN). -/
def jsNumberVal (s : String) : Option ℚ :=
  (jsNumber s).map (fun p => (p.1 : ℚ) / (p.2 : ℚ))

/-- `Number(price) > 0` (false when `Number(price)` is NaN), computed on
the numerator; the denominator is a positive power of ten. -/
def numGtZero (s : String) : Bool :=
  match jsNumber s with
  | some p => decide (0 < p.1)
  | none => false

/-- The state held by `AddProductForm`. -/
structure FormState where
  title : String
  price : String
  description : String
  category : String
  imageB64 : String
  previewSrc : String
  submitting : Bool
  error : Option String
  success : Option String
deriving DecidableEq, Repr

/-- The `allValid` predicate of the form, exactly as computed in the
component. -/
def allValid (s : FormState) : Bool :=
  decide ((jsTrim s.title).length > 0) && numGtZero s.price &&
    decide ((jsTrim s.description).length > 0) &&
    decide ((jsTrim s.category).length > 0) &&
    decide ((jsTrim s.imageB64).length > 0) && !s.submitting

/-- The submit button's `disabled` attribute: `disabled={!allValid}`. -/
def submitDisabled (s : FormState) : Bool :=
  !allValid s

/-- Events the DOM can deliver to the form component. -/
inductive FormEvent where
  | setTitle (s : String)
  | setPrice (s : String)
  | setDescription (s : String)
  | setCategory (s : String)
  | imageLoaded (b64 : String)
  | reset
  | submitStart
  | resolveSuccess
  | resolveFailure (msg : String)
deriving DecidableEq, Repr

/-- One step of the form component.  Field events write the field;
`imageLoaded` is a completed `handleImageChange` (payload and preview
set, error cleared); `reset` is the Reset button (`resetForm`);
`submitStart` is form submission, possible only while the submit
control is enabled (`allValid`), and runs the head of `handleSubmit`;
the resolve events are the two exits of the awaited fetch, each running
the corresponding branch and the `finally`.  `none` marks an event the
component cannot take in that state. -/
def stepForm (s : FormState) (e : FormEvent) : Option FormState :=
  match e with
  | .setTitle t => some { s with title := t }
  | .setPrice p => some { s with price := p }
  | .setDescription d => some { s with description := d }
  | .setCategory c => some { s with category := c }
  | .imageLoaded b =>
    some { s with imageB64 := b, previewSrc := b, error := none }
  | .reset =>
    some { s with
      title := ""
      price := ""
      description := ""
      category := ""
      imageB64 := ""
      previewSrc := "" }
  | .submitStart =>
    if allValid s then
      some { s with submitting := true, error := none, success := none }
    else none
  | .resolveSuccess =>
    if s.submitting then
      some { s with
        success := some "Product created successfully!"
        title := ""
        price := ""
        description := ""
        category := ""
        imageB64 := ""
        previewSrc := ""
        submitting := false }
    else none
  | .resolveFailure m =>
    if s.submitting then
      some { s with error := some m, submitting := false }
    else none

/-- A rating summary as delivered by the catalog service. -/
structure Rating where
  rate : ℚ
  count : Nat
deriving DecidableEq, Repr

/-- A product as held by the catalog page, rating optional.  A created
record arriving in the success callback is a runtime JSON object and
may carry a rating even though the response type does not declare
one. -/
structure ClientProduct where
  id : Nat
  title : String
  category : String
  price : ℚ
  description : String
  image : String
  rating : Option Rating
deriving DecidableEq, Repr

/-- The page's `onSuccess` callback body:
`setProducts(prev => [{ ...created, rating: { rate: 0, count: 0 } }, ...prev])`.
The rating override follows the spread, so it always applies. -/
def onSuccessPrepend (created : ClientProduct) (prev : List ClientProduct) :
    List ClientProduct :=
  { created with rating := some ⟨0, 0⟩ } :: prev

/-- The validity condition as the specification words it: false exactly
when a text field is empty or whitespace-only after trimming, the price
is not numerically greater than 0, no image payload is present, or a
submission is in flight. -/
def specInvalid (s : FormState) : Prop :=
  jsTrim s.title = "" ∨ jsTrim s.description = "" ∨
    jsTrim s.category = "" ∨
    ¬ (∃ q, jsNumberVal s.price = some q ∧ 0 < q) ∨
    jsTrim s.imageB64 = "" ∨ s.submitting = true

/-- Every successful `Number(...)` parse has a positive denominator. -/
lemma jsNumber_den_pos (s : String) (p : Int × Nat)
    (h : jsNumber s = some p) : 0 < p.2 := by
  unfold jsNumber at h
  dsimp only at h
  split at h
  · cases h; exact Nat.one_pos
  · split at h
    · split at h
      · exact absurd h (by simp)
      · cases h; exact Nat.one_pos
    · split at h
      · cases h; exact Nat.pos_pow_of_pos _ (by norm_num)
      · exact absurd h (by simp)
    · exact absurd h (by simp)

/-- The numerator test used by `numGtZero` agrees with positivity of the
parsed rational value. -/
lemma numGtZero_iff_val (s : String) :
    numGtZero s = true ↔ ∃ q, jsNumberVal s = some q ∧ 0 < q := by
  unfold numGtZero jsNumberVal
  cases h : jsNumber s with
  | none => simp
  | some p =>
    have hden : (0 : ℚ) < (p.2 : ℚ) := by
      exact_mod_cast jsNumber_den_pos s p h
    simp only [Option.map_some', Option.some_inj, decide_eq_true_eq]
    constructor
    · intro hp
      exact ⟨(p.1 : ℚ) / (p.2 : ℚ), rfl,
        div_pos (by exact_mod_cast hp) hden⟩
    · rintro ⟨q, rfl, hq⟩
      have : (0 : ℚ) < (p.1 : ℚ) := by
        by_contra hle
        push_neg at hle
        exact absurd hq (not_lt.mpr (div_nonpos_of_nonpos_of_nonneg hle
          (le_of_lt hden)))
      exact_mod_cast this

/-- A string is empty exactly when its length is zero. -/
lemma string_eq_empty_iff (s : String) : s = "" ↔ s.length = 0 := by
  cases s with
  | mk data =>
    constructor
    · intro h
      rw [h]
      rfl
    · intro h
      have hd : data = [] := List.length_eq_zero.mp h
      rw [hd]

/-- The length test of the form code is false exactly on the empty
trimmed string. -/
lemma trim_check_false (s : String) :
    decide ((jsTrim s).length > 0) = false ↔ jsTrim s = "" := by
  rw [decide_eq_false_iff_not, string_eq_empty_iff (jsTrim s)]
  omega

/-- No row matches an id exactly when the match count is zero. -/
lemma matchCount_eq_zero_iff (db : DB) (id : Nat) :
    matchCount db id = 0 ↔ ∀ r ∈ db.rows, r.id ≠ id := by
  unfold matchCount selectById
  simp

/-- The update keeps the row id. -/
lemma applyUpdate_id (r : Row) (b : ReqBody) :
    (applyUpdate r b).id = r.id := rfl

/-- Selecting the updated id after the UPDATE yields exactly the updated
versions of the rows that matched before. -/
lemma filter_map_update (rows : List Row) (id : Nat) (b : ReqBody) :
    (rows.map (fun r => if r.id == id then applyUpdate r b else r)).filter
        (fun r => r.id == id) =
      (rows.filter (fun r => r.id == id)).map (fun r => applyUpdate r b) := by
  induction rows with
  | nil => rfl
  | cons r rows ih =>
    simp only [List.map_cons, List.filter_cons, beq_iff_eq] at ih ⊢
    by_cases h : r.id = id
    · simp [h, applyUpdate_id, ih]
    · simp [h, ih]

/-- C5: the list operation reads all rows of the products table and
returns the full collection ordered by identifier descending, with the
database untouched. -/
theorem C5_list_all_sorted (db : DB) :
    (getAllHandler db noFaults).1.status = 200 ∧
    (getAllHandler db noFaults).1.body = .rows (sortByIdDesc db.rows) ∧
    List.Perm (sortByIdDesc db.rows) db.rows ∧
    List.Sorted (fun a b : Row => b.id ≤ a.id) (sortByIdDesc db.rows) ∧
    (getAllHandler db noFaults).2 = db :=
  ⟨rfl, rfl, List.perm_insertionSort _ _, List.sorted_insertionSort _ _, rfl⟩

/-- C6: deleting a nonexistent id answers 404 and leaves the table as
it was; deleting an existing id answers the success message and the id
is absent from the collection a subsequent list call returns. -/
theorem C6_delete_by_id (db : DB) (id : Nat) :
    ((∀ r ∈ db.rows, r.id ≠ id) →
      deleteHandler db id noFaults = (⟨404, .msg "Product not found"⟩, db)) ∧
    ((∃ r ∈ db.rows, r.id = id) →
      (deleteHandler db id noFaults).1 = ⟨200, .msg "Product deleted"⟩ ∧
      ∀ l, (getAllHandler (deleteHandler db id noFaults).2 noFaults).1.body =
          .rows l → ∀ r ∈ l, r.id ≠ id) := by
  constructor
  · intro h
    have hz : matchCount db id = 0 := (matchCount_eq_zero_iff db id).mpr h
    simp [deleteHandler, noFaults, hz]
  · rintro ⟨r0, hr0, hid⟩
    have hnz : matchCount db id ≠ 0 := by
      intro hz
      exact absurd hid ((matchCount_eq_zero_iff db id).mp hz r0 hr0)
    refine ⟨by simp [deleteHandler, noFaults, hnz], ?_⟩
    intro l hl r hr
    have hbody : (getAllHandler (deleteHandler db id noFaults).2 noFaults).1.body
        = .rows (sortByIdDesc (deleteHandler db id noFaults).2.rows) := rfl
    rw [hbody] at hl
    have hleq : l = sortByIdDesc (deleteHandler db id noFaults).2.rows := by
      cases hl
      rfl
    subst hleq
    have hmem : r ∈ (deleteHandler db id noFaults).2.rows := by
      have := List.perm_insertionSort (fun a b : Row => b.id ≤ a.id)
        (deleteHandler db id noFaults).2.rows
      exact this.mem_iff.mp hr
    have hrows : (deleteHandler db id noFaults).2.rows =
        db.rows.filter (fun r => r.id != id) := by
      simp [deleteHandler, noFaults, hnz]
    rw [hrows] at hmem
    have := List.of_mem_filter hmem
    simpa using this

/-- Concrete instance of the delete contract: a one-row table, a miss
on id 5 and a hit on id 1. -/
def dbOneRow : DB := ⟨[⟨1, .str "a", .num 2, .str "d", .str "c", .null⟩], 2⟩

theorem C6_delete_by_id_witness :
    deleteHandler dbOneRow 5 noFaults = (⟨404, .msg "Product not found"⟩, dbOneRow) ∧
    (deleteHandler dbOneRow 1 noFaults).1 = ⟨200, .msg "Product deleted"⟩ :=
  ⟨(C6_delete_by_id dbOneRow 5).1 (by decide),
    ((C6_delete_by_id dbOneRow 1).2 ⟨⟨1, .str "a", .num 2, .str "d", .str "c",
      .null⟩, by decide, rfl⟩).1⟩

/-- Selecting the fresh insert id right after the INSERT finds exactly
the inserted row, on any well-formed table. -/
lemma selectById_after_insert (db : DB) (row : Row) (hwf : db.wf)
    (hid : row.id = db.nextId) :
    selectById ⟨db.rows ++ [row], db.nextId + 1⟩ db.nextId = [row] := by
  unfold selectById
  rw [List.filter_append]
  have h1 : db.rows.filter (fun r => r.id == db.nextId) = [] := by
    rw [List.filter_eq_nil_iff]
    intro r hr
    simp only [beq_iff_eq]
    exact Nat.ne_of_lt (hwf r hr)
  have h2 : [row].filter (fun r => r.id == db.nextId) = [row] := by
    simp [hid]
  rw [h1, h2, List.nil_append]

/-- A request body in which every required field is present — yet the
create handler rejects it, because the supplied price 0 is falsy. -/
def c1body : ReqBody :=
  ⟨some (.str "Widget"), some (.num 0), some (.str "nice"),
    some (.str "toys"), none⟩

/-- C1 counterexample: all four required fields of this body are
present, but `POST /products` answers 400, not 201 — the validation
tests JavaScript truthiness, not presence, and the supplied price 0 is
falsy. -/
theorem C1_counterexample :
    c1body.name.isSome = true ∧ c1body.price.isSome = true ∧
    c1body.description.isSome = true ∧ c1body.category.isSome = true ∧
    (postHandler dbEmpty c1body noFaults).1.status = 400 := by
  decide

/-- A body field fails the truthiness test exactly when it is absent or
present but falsy. -/
lemma truthyOpt_eq_false_iff (o : Option JsonVal) :
    truthyOpt o = false ↔ o = none ∨ ∃ v, o = some v ∧ v.truthy = false := by
  cases o with
  | none => simp [truthyOpt]
  | some v => simp [truthyOpt]

/-- C1 amended: a required field that is absent — or present but falsy
(empty string, 0, null, false) — is answered 400 with a message, under
every fault schedule; a body whose required fields are all present and
truthy is answered 201, fault-free, with the freshly read row carrying
the input fields, NULL for an absent image, and the server-assigned
id. -/
theorem C1_create_contract (db : DB) (b : ReqBody) :
    (∀ faults : Nat → Bool,
      ((b.name = none ∨ ∃ v, b.name = some v ∧ v.truthy = false) ∨
        (b.price = none ∨ ∃ v, b.price = some v ∧ v.truthy = false) ∨
        (b.description = none ∨
          ∃ v, b.description = some v ∧ v.truthy = false) ∨
        (b.category = none ∨ ∃ v, b.category = some v ∧ v.truthy = false)) →
      (postHandler db b faults).1.status = 400 ∧
      (postHandler db b faults).1.body = .msg "Missing required fields" ∧
      (postHandler db b faults).2 = db) ∧
    (requiredPresent b = true → db.wf →
      (postHandler db b noFaults).1.status = 201 ∧
      (postHandler db b noFaults).1.body = .row ⟨db.nextId,
        optToVal b.name, optToVal b.price, optToVal b.description,
        optToVal b.category, optToVal b.image⟩ ∧
      (postHandler db b noFaults).2.rows = db.rows ++ [⟨db.nextId,
        optToVal b.name, optToVal b.price, optToVal b.description,
        optToVal b.category, optToVal b.image⟩]) := by
  constructor
  · intro faults h
    have hreq : requiredPresent b = false := by
      rcases h with h | h | h | h <;>
        (have hf := (truthyOpt_eq_false_iff _).mpr h
         simp [requiredPresent, hf])
    simp [postHandler, hreq]
  · intro hreq hwf
    have hsel := selectById_after_insert db ⟨db.nextId, optToVal b.name,
      optToVal b.price, optToVal b.description, optToVal b.category,
      optToVal b.image⟩ hwf rfl
    simp [postHandler, hreq, noFaults, hsel]

/-- A body with the price field absent, and one with every required
field present and truthy. -/
def c1missing : ReqBody :=
  ⟨some (.str "W"), none, some (.str "d"), some (.str "c"), none⟩

def c1ok : ReqBody :=
  ⟨some (.str "W"), some (.num 3), some (.str "d"), some (.str "c"), none⟩

theorem C1_create_contract_witness :
    (postHandler dbEmpty c1missing noFaults).1.status = 400 ∧
    (postHandler dbEmpty c1body noFaults).1.status = 400 ∧
    (postHandler dbEmpty c1ok noFaults).1.status = 201 :=
  ⟨((C1_create_contract dbEmpty c1missing).1 noFaults
      (Or.inr (Or.inl (Or.inl rfl)))).1,
    ((C1_create_contract dbEmpty c1body).1 noFaults
      (Or.inr (Or.inl (Or.inr ⟨.num 0, rfl, by decide⟩)))).1,
    ((C1_create_contract dbEmpty c1ok).2 (by decide)
      (by intro r hr; cases hr)).1⟩

/-- A body supplying price 0 along with the other required fields. -/
def c2body : ReqBody :=
  ⟨some (.str "Gadget"), some (.num 0), some (.str "desc"),
    some (.str "misc"), none⟩

/-- C2 counterexample: a create request supplying a price value (0)
along with the other required fields is rejected with the validation
error — the server does not accept every supplied price value. -/
theorem C2_counterexample :
    c2body.price = some (JsonVal.num 0) ∧
    truthyOpt c2body.name = true ∧ truthyOpt c2body.description = true ∧
    truthyOpt c2body.category = true ∧
    (postHandler dbEmpty c2body noFaults).1 =
      ⟨400, .msg "Missing required fields"⟩ := by
  decide

/-- C2 amended: the price > 0 constraint is enforced only client-side,
but the server still requires the supplied price to be truthy; every
supplied falsy price (0, empty string, null, false) is rejected with
the 400 validation error, while any truthy price value (for instance a
negative number) passes create validation — the handler never answers
400 for such a body. -/
theorem C2_truthy_price_accepted (db : DB) (b : ReqBody)
    (faults : Nat → Bool) :
    ((∃ v, b.price = some v ∧ v.truthy = false) →
      (postHandler db b faults).1.status = 400 ∧
      (postHandler db b faults).1.body = .msg "Missing required fields") ∧
    (truthyOpt b.price = true → truthyOpt b.name = true →
      truthyOpt b.description = true → truthyOpt b.category = true →
      (postHandler db b faults).1.status ≠ 400) := by
  constructor
  · intro h
    have hf : truthyOpt b.price = false :=
      (truthyOpt_eq_false_iff b.price).mpr (Or.inr h)
    have hreq : requiredPresent b = false := by
      simp [requiredPresent, hf]
    simp [postHandler, hreq]
  · intro hp hn hd hc
    have hreq : requiredPresent b = true := by
      simp [requiredPresent, hp, hn, hd, hc]
    simp only [postHandler, hreq, Bool.not_true, Bool.false_eq_true,
      if_false]
    split
    · simp
    · split
      · simp
      · split
        · simp
        · simp

/-- A body with a negative supplied price. -/
def c2negative : ReqBody :=
  ⟨some (.str "Gadget"), some (.num (-5)), some (.str "d"),
    some (.str "m"), none⟩

theorem C2_truthy_price_accepted_witness :
    (postHandler dbEmpty c2negative noFaults).1.status ≠ 400 ∧
    (postHandler dbEmpty c2body noFaults).1.status = 400 :=
  ⟨(C2_truthy_price_accepted dbEmpty c2negative noFaults).2 (by decide)
      (by decide) (by decide) (by decide),
    ((C2_truthy_price_accepted dbEmpty c2body noFaults).1
      ⟨.num 0, rfl, by decide⟩).1⟩

/-- C9: the update route performs no field validation — no request
body is ever answered 400, under any fault schedule; and when a row
matches the id (normal operation), the handler answers 200 with the
freshly read row, whose mutable columns all come from the body (an
absent image stored as NULL), the table mapping every matching row
through the same overwrite. -/
theorem C9_put_no_validation (db : DB) (id : Nat) (b : ReqBody) :
    (∀ faults : Nat → Bool, (putHandler db id b faults).1.status ≠ 400) ∧
    ((∃ r ∈ db.rows, r.id = id) →
      (putHandler db id b noFaults).1.status = 200 ∧
      (∃ r : Row, (putHandler db id b noFaults).1.body = .row r ∧
        r.id = id ∧ r.name = optToVal b.name ∧ r.price = optToVal b.price ∧
        r.description = optToVal b.description ∧
        r.category = optToVal b.category ∧ r.image = optToVal b.image) ∧
      (putHandler db id b noFaults).2.rows =
        db.rows.map (fun r => if r.id == id then applyUpdate r b else r)) := by
  constructor
  · intro faults
    unfold putHandler
    split
    · simp
    · split
      · simp
      · split
        · simp
        · cases selectById (updatedDB db id b) id <;> simp
  · rintro ⟨r0, hr0, hid⟩
    have hnz : matchCount db id ≠ 0 := by
      intro hz
      exact absurd hid ((matchCount_eq_zero_iff db id).mp hz r0 hr0)
    have hsel : selectById (updatedDB db id b) id =
        (db.rows.filter (fun r => r.id == id)).map
          (fun r => applyUpdate r b) := by
      unfold selectById updatedDB
      exact filter_map_update db.rows id b
    have hne : db.rows.filter (fun r => r.id == id) ≠ [] := by
      intro hnil
      exact hnz (by simp [matchCount, selectById, hnil])
    cases hfil : db.rows.filter (fun r => r.id == id) with
    | nil => exact absurd hfil hne
    | cons rm t =>
      have hrm : rm.id = id := by
        have : rm ∈ db.rows.filter (fun r => r.id == id) := by
          rw [hfil]
          exact List.mem_cons_self rm t
        simpa using List.of_mem_filter this
      have hput : putHandler db id b noFaults =
          (⟨200, .row (applyUpdate rm b)⟩, updatedDB db id b) := by
        unfold putHandler
        simp only [noFaults, Bool.false_eq_true, if_false]
        rw [if_neg (by simpa using hnz)]
        rw [hsel, hfil]
        rfl
      rw [hput]
      exact ⟨rfl, ⟨applyUpdate rm b, rfl, hrm, rfl, rfl, rfl, rfl, rfl⟩, rfl⟩

/-- The all-fields-absent body: the most extreme input the update route
still accepts without validation. -/
def bodyAllNone : ReqBody := ⟨none, none, none, none, none⟩

theorem C9_put_no_validation_witness :
    (putHandler dbOneRow 1 bodyAllNone noFaults).1.status = 200 :=
  ((C9_put_no_validation dbOneRow 1 bodyAllNone).2
    ⟨⟨1, .str "a", .num 2, .str "d", .str "c", .null⟩, by decide, rfl⟩).1

/-- C7: whenever a data-access query a handler actually issues faults,
the response is status 500 with a `{ message }` body — for the list,
get, create, update and delete operations alike; no fault escapes with
another status.  Query 0 is each handler's first query; the create and
update handlers issue a second query (create only past validation,
update only when a row matched). -/
theorem C7_fault_policy (db : DB) (b : ReqBody) (id : Nat)
    (faults : Nat → Bool) :
    (faults 0 = true →
      serverFaultResp (getAllHandler db faults).1 ∧
      serverFaultResp (getOneHandler db id faults).1 ∧
      serverFaultResp (putHandler db id b faults).1 ∧
      serverFaultResp (deleteHandler db id faults).1) ∧
    (requiredPresent b = true → (faults 0 = true ∨ faults 1 = true) →
      serverFaultResp (postHandler db b faults).1) ∧
    (faults 0 = false → matchCount db id ≠ 0 → faults 1 = true →
      serverFaultResp (putHandler db id b faults).1) := by
  refine ⟨?_, ?_, ?_⟩
  · intro h0
    refine ⟨?_, ?_, ?_, ?_⟩ <;>
      simp [getAllHandler, getOneHandler, putHandler, deleteHandler, h0,
        serverFaultResp, RespBody.isMsg]
  · intro hreq hf
    rcases hf with h0 | h1
    · by_cases hz : faults 0 = true
      · simp [postHandler, hreq, hz, serverFaultResp, RespBody.isMsg]
      · exact absurd h0 hz
    · by_cases h0 : faults 0 = true
      · simp [postHandler, hreq, h0, serverFaultResp, RespBody.isMsg]
      · simp [postHandler, hreq, h0, h1, serverFaultResp, RespBody.isMsg]
  · intro h0 hnz h1
    simp [putHandler, h0, h1, serverFaultResp, RespBody.isMsg, hnz]

/-- The schedule on which every query faults. -/
def faultsAll : Nat → Bool := fun _ => true

theorem C7_fault_policy_witness :
    serverFaultResp (getAllHandler dbEmpty faultsAll).1 ∧
    serverFaultResp (postHandler dbEmpty c1ok faultsAll).1 :=
  ⟨((C7_fault_policy dbEmpty c1ok 1 faultsAll).1 rfl).1,
    (C7_fault_policy dbEmpty c1ok 1 faultsAll).2.1 (by decide) (Or.inl rfl)⟩

/-- The form's `allValid` unfolded to its six conjuncts. -/
lemma allValid_eq_true_iff (s : FormState) :
    allValid s = true ↔
      ((jsTrim s.title).length > 0 ∧ numGtZero s.price = true ∧
        (jsTrim s.description).length > 0 ∧
        (jsTrim s.category).length > 0 ∧
        (jsTrim s.imageB64).length > 0 ∧ s.submitting = false) := by
  unfold allValid
  simp [Bool.and_eq_true, and_assoc, Bool.not_eq_true']

/-- C3: the submission-validity predicate is false exactly when some
text field of title, description, category is empty or whitespace-only
after trimming, or the price does not parse to a value numerically
greater than 0, or no image payload is present, or a submission is in
flight — and true otherwise. -/
theorem C3_validity_predicate (s : FormState) :
    allValid s = false ↔ specInvalid s := by
  constructor
  · intro h
    by_contra hspec
    unfold specInvalid at hspec
    push_neg at hspec
    obtain ⟨h1, h2, h3, h4, h5, h6⟩ := hspec
    have hlen : ∀ t : String, jsTrim t ≠ "" → (jsTrim t).length > 0 :=
      fun t ht => Nat.pos_of_ne_zero
        (fun hz => ht ((string_eq_empty_iff (jsTrim t)).mpr hz))
    have hnum : numGtZero s.price = true :=
      (numGtZero_iff_val s.price).mpr h4
    have hv : allValid s = true :=
      (allValid_eq_true_iff s).mpr ⟨hlen _ h1, hnum, hlen _ h2, hlen _ h3,
        hlen _ h5, Bool.eq_false_iff.mpr h6⟩
    rw [h] at hv
    exact Bool.false_ne_true hv
  · intro hspec
    rcases Bool.eq_false_or_eq_true (allValid s) with hv | hv
    · exfalso
      obtain ⟨g1, g2, g3, g4, g5, g6⟩ := (allValid_eq_true_iff s).mp hv
      unfold specInvalid at hspec
      rcases hspec with h | h | h | h | h | h
      · rw [h] at g1
        exact absurd g1 (by simp)
      · rw [h] at g3
        exact absurd g3 (by simp)
      · rw [h] at g4
        exact absurd g4 (by simp)
      · exact h ((numGtZero_iff_val s.price).mp g2)
      · rw [h] at g5
        exact absurd g5 (by simp)
      · rw [h] at g6
        exact Bool.noConfusion g6
    · exact hv

/-- A created record as the success callback can receive it at runtime:
it carries a non-zero rating. -/
def c4created : ClientProduct :=
  ⟨101, "Shirt", "men", 10, "d", "img", some ⟨4, 7⟩⟩

/-- C4 counterexample: the created record carries the rating
rate 4 / count 7, yet the record stored at the head of the list has the
synthesized zero rating — the rating override follows the object
spread, so a rating supplied in the server response is NOT preserved. -/
theorem C4_counterexample :
    c4created.rating = some ⟨4, 7⟩ ∧
    (onSuccessPrepend c4created []).head? =
      some ⟨101, "Shirt", "men", 10, "d", "img", some ⟨0, 0⟩⟩ ∧
    (⟨4, 7⟩ : Rating) ≠ ⟨0, 0⟩ := by
  refine ⟨rfl, rfl, ?_⟩
  intro h
  cases h
  -- the rate components 4 and 0 would have to be equal

/-- C4 amended: the success callback prepends the created record at the
head of the held list, keeping every field of the record except the
rating, which is always set to the synthesized zero rating rate 0 /
count 0 — regardless of any rating the record carried. -/
theorem C4_prepend_zero_rating (created : ClientProduct)
    (prev : List ClientProduct) :
    (onSuccessPrepend created prev).length = prev.length + 1 ∧
    (onSuccessPrepend created prev).tail = prev ∧
    ∃ stored : ClientProduct,
      (onSuccessPrepend created prev).head? = some stored ∧
      stored.id = created.id ∧ stored.title = created.title ∧
      stored.category = created.category ∧ stored.price = created.price ∧
      stored.description = created.description ∧
      stored.image = created.image ∧ stored.rating = some ⟨0, 0⟩ :=
  ⟨rfl, rfl, { created with rating := some ⟨0, 0⟩ }, rfl, rfl, rfl, rfl,
    rfl, rfl, rfl, rfl⟩

/-- A form state mid-submission: the submitting flag is set. -/
def formBusy : FormState :=
  ⟨"Shirt", "10", "d", "men", "img64", "img64", true, none, none⟩

/-- C8: while the submitting flag is set, the validity predicate is
false and the submit control is disabled, a new submission cannot start
(its step is undefined), and the only events that clear the flag are
the two resolutions of the in-flight request. -/
theorem C8_no_concurrent_submission (s : FormState)
    (hsub : s.submitting = true) :
    (allValid s = false ∧ submitDisabled s = true ∧
      stepForm s .submitStart = none) ∧
    ∀ e s2, stepForm s e = some s2 → s2.submitting = false →
      e = .resolveSuccess ∨ ∃ m, e = .resolveFailure m := by
  have hinv : allValid s = false := by
    unfold allValid
    simp [hsub]
  refine ⟨⟨hinv, by simp [submitDisabled, hinv], by simp [stepForm, hinv]⟩,
    ?_⟩
  intro e s2 hstep hcleared
  cases e with
  | setTitle t =>
    cases hstep
    rw [hsub] at hcleared
    exact Bool.noConfusion hcleared
  | setPrice p =>
    cases hstep
    rw [hsub] at hcleared
    exact Bool.noConfusion hcleared
  | setDescription d =>
    cases hstep
    rw [hsub] at hcleared
    exact Bool.noConfusion hcleared
  | setCategory c =>
    cases hstep
    rw [hsub] at hcleared
    exact Bool.noConfusion hcleared
  | imageLoaded b64 =>
    cases hstep
    rw [hsub] at hcleared
    exact Bool.noConfusion hcleared
  | reset =>
    cases hstep
    rw [hsub] at hcleared
    exact Bool.noConfusion hcleared
  | submitStart =>
    rw [show stepForm s .submitStart = none by simp [stepForm, hinv]]
      at hstep
    exact Option.noConfusion hstep
  | resolveSuccess => exact Or.inl rfl
  | resolveFailure m => exact Or.inr ⟨m, rfl⟩

theorem C8_no_concurrent_submission_witness :
    allValid formBusy = false ∧ stepForm formBusy .submitStart = none :=
  ⟨((C8_no_concurrent_submission formBusy rfl).1).1,
    ((C8_no_concurrent_submission formBusy rfl).1).2.2⟩

/-- A valid form state still showing the success message of an earlier
submission. -/
def formPrev : FormState :=
  ⟨"Shirt", "10", "d", "men", "img64", "img64", false, none,
    some "Product created successfully!"⟩

/-- C10 counterexample: submitting from a state that shows a success
message and then failing leaves the fields intact, but the success
message has been cleared (at submit start) — so more than the error
message and the submitting flag changed over the failed attempt. -/
theorem C10_counterexample :
    formPrev.success = some "Product created successfully!" ∧
    (stepForm formPrev .submitStart).bind
        (fun s1 => stepForm s1 (.resolveFailure "HTTP 500")) =
      some ⟨"Shirt", "10", "d", "men", "img64", "img64", false,
        some "HTTP 500", none⟩ ∧
    (⟨"Shirt", "10", "d", "men", "img64", "img64", false,
        some "HTTP 500", none⟩ : FormState).success ≠ formPrev.success := by
  decide

/-- C10 amended: over a failed submission the field state — title,
price, description, category, image payload, preview — is unchanged,
the error message is set, the submitting flag is cleared, and the
success message is cleared (at submit start); the fields are reset to
empty only on the success resolution. -/
theorem C10_failure_keeps_fields (s s1 : FormState) (msg : String)
    (hstart : stepForm s .submitStart = some s1) :
    (∀ s2, stepForm s1 (.resolveFailure msg) = some s2 →
      s2.title = s.title ∧ s2.price = s.price ∧
      s2.description = s.description ∧ s2.category = s.category ∧
      s2.imageB64 = s.imageB64 ∧ s2.previewSrc = s.previewSrc ∧
      s2.error = some msg ∧ s2.success = none ∧ s2.submitting = false) ∧
    (∀ s3, stepForm s1 .resolveSuccess = some s3 →
      s3.title = "" ∧ s3.price = "" ∧ s3.description = "" ∧
      s3.category = "" ∧ s3.imageB64 = "" ∧ s3.previewSrc = "" ∧
      s3.submitting = false) := by
  unfold stepForm at hstart
  by_cases hv : allValid s = true
  · rw [if_pos hv] at hstart
    cases hstart
    constructor
    · intro s2 h2
      dsimp only [stepForm] at h2
      rw [if_pos rfl] at h2
      cases h2
      exact ⟨rfl, rfl, rfl, rfl, rfl, rfl, rfl, rfl, rfl⟩
    · intro s3 h3
      dsimp only [stepForm] at h3
      rw [if_pos rfl] at h3
      cases h3
      exact ⟨rfl, rfl, rfl, rfl, rfl, rfl, rfl⟩
  · rw [if_neg hv] at hstart
    exact Option.noConfusion hstart

/-- The same valid form state with no messages, the state after submit
start, and the state after a failed resolution. -/
def formStart : FormState :=
  ⟨"Shirt", "10", "d", "men", "img64", "img64", false, none, none⟩

def formMid : FormState :=
  ⟨"Shirt", "10", "d", "men", "img64", "img64", true, none, none⟩

def formFailed : FormState :=
  ⟨"Shirt", "10", "d", "men", "img64", "img64", false, some "boom", none⟩

theorem C10_failure_keeps_fields_witness :
    formFailed.title = formStart.title ∧
    formFailed.price = formStart.price ∧
    formFailed.description = formStart.description ∧
    formFailed.category = formStart.category ∧
    formFailed.imageB64 = formStart.imageB64 ∧
    formFailed.previewSrc = formStart.previewSrc ∧
    formFailed.error = some "boom" ∧ formFailed.success = none ∧
    formFailed.submitting = false :=
  (C10_failure_keeps_fields formStart formMid "boom" (by decide)).1
    formFailed (by decide)
